import Mathlib

/-!
A shallow embedding of the form identity, classification and persistence
logic of the Auto Form Recovery content script (the contentScript section of
src/autoFormRecovery/popup.js).

Modelling conventions:
* DOM strings are lists of characters.  An attribute for which the code
  treats null and the empty string identically (name, id, class, action,
  autocomplete) is modelled as a plain list, with the empty list standing for
  both.  Attributes whose presence matters in isolation (the type attribute
  and the data-autorecovery attribute, read through getAttribute) are
  modelled as Option.
* A JavaScript object used as a string-keyed map is modelled as an
  association list in which a write prepends an entry and a read takes the
  first matching entry; this yields exactly the read-after-overwrite
  semantics of property assignment.
* The IDL property el.type of an input element normalises the type attribute
  to lower case, so the tests for checkbox and radio are modelled on the
  lower-cased type attribute; the IDL property el.autocomplete likewise
  exposes the token off in lower case.
* Effects of restoreFormData that the claims observe are returned in a
  record: the updated form, the number of field assignments performed, and
  whether a storage delete or the restore notification call was issued.
-/

namespace AutoFormRecovery

/-- Lower-case a DOM string, as String.prototype.toLowerCase does on the
ASCII strings this program compares. -/
def lower (s : List Char) : List Char := s.map Char.toLower

/-- Does the second list start with the first? (helper for substring tests) -/
def begMatch : List Char → List Char → Bool
  | [], _ => true
  | _ :: _, [] => false
  | a :: ta, b :: tb => a == b && begMatch ta tb

/-- Contiguous substring test: the model of String.prototype.includes. -/
def hasSub (needle : List Char) : List Char → Bool
  | [] => needle.isEmpty
  | c :: rest => begMatch needle (c :: rest) || hasSub needle rest

/-- A form control as the content script observes it. -/
structure Control where
  tag : List Char
  typeAttr : Option (List Char)
  nameAttr : List Char
  idAttr : List Char
  autocompleteAttr : List Char
  dataAutorecovery : Option (List Char)
  value : List Char
  checked : Bool
deriving DecidableEq

/-- A form: its four scanned attributes and its listed controls in DOM
order (form.elements; the same list backs the descendant queries). -/
structure Form where
  idAttr : List Char
  nameAttr : List Char
  classAttr : List Char
  actionAttr : List Char
  controls : List Control
deriving DecidableEq

/-- The settings record of the extension. -/
structure Settings where
  enabled : Bool
  retentionDays : Nat
  ignoreDomains : List (List Char)
  ignoreLoginForms : Bool
deriving DecidableEq

/-- The hardcoded default settings. -/
def DEFAULTS : Settings :=
  { enabled := true, retentionDays := 30, ignoreDomains := [], ignoreLoginForms := true }

/-- The type attribute as the code reads it: lower-cased, empty when absent. -/
def typeOf (el : Control) : List Char := lower (el.typeAttr.getD [])

/-- el.tagName.toLowerCase() -/
def tagOf (el : Control) : List Char := lower el.tag

/-- shouldSaveField: skip password, hidden and file inputs, fields with
autocomplete off, and fields with data-autorecovery equal to "false". -/
def shouldSaveField (el : Control) : Bool :=
  if tagOf el = "input".toList ∧
      typeOf el ∈ ["password".toList, "hidden".toList, "file".toList] then false
  else if lower el.autocompleteAttr = "off".toList then false
  else if el.dataAutorecovery = some "false".toList then false
  else true

/-- The password query of the source: some descendant input carries a type
attribute equal to password. -/
def passwordQuery (f : Form) : Bool :=
  f.controls.any fun el =>
    decide (tagOf el = "input".toList ∧ typeOf el = "password".toList)

/-- The combined id, name, class and action attributes of the form,
joined with single spaces and lower-cased. -/
def formAttrsLower (f : Form) : List Char :=
  lower (f.idAttr ++ ' ' :: (f.nameAttr ++ ' ' :: (f.classAttr ++ ' ' :: f.actionAttr)))

/-- The keyword patterns typical of login pages. -/
def keywords : List (List Char) :=
  ["login".toList, "log-in".toList, "sign-in".toList, "signin".toList,
   "sign_in".toList, "auth".toList, "authenticate".toList,
   "authentication".toList, "account".toList, "passwd".toList]

/-- Does any login keyword occur in the combined form attributes? -/
def authKeywordHit (f : Form) : Bool :=
  keywords.any fun k => hasSub k (formAttrsLower f)

/-- All descendant input elements of the form. -/
def inputsOf (f : Form) : List Control :=
  f.controls.filter fun el => decide (tagOf el = "input".toList)

/-- The text-like inputs: type in text, email, tel, phone, number, or an
absent or empty type attribute. -/
def textInputs (f : Form) : List Control :=
  (inputsOf f).filter fun el =>
    decide (typeOf el ∈ ["text".toList, "email".toList, "tel".toList,
                         "phone".toList, "number".toList] ∨ typeOf el = [])

/-- The email-like inputs: type email, or a name or id containing email. -/
def emailInputs (f : Form) : List Control :=
  (inputsOf f).filter fun el =>
    decide (typeOf el = "email".toList) || hasSub "email".toList (lower el.nameAttr)
      || hasSub "email".toList (lower el.idAttr)

/-- The inputs whose type attribute is password. -/
def passwordInputs (f : Form) : List Control :=
  (inputsOf f).filter fun el => decide (typeOf el = "password".toList)

/-- All descendant textarea elements of the form. -/
def textAreasOf (f : Form) : List Control :=
  f.controls.filter fun el => decide (tagOf el = "textarea".toList)

/-- The user-like inputs: a name or id containing user or login. -/
def userInputs (f : Form) : List Control :=
  (inputsOf f).filter fun el =>
    hasSub "user".toList (lower el.nameAttr) || hasSub "user".toList (lower el.idAttr)
      || hasSub "login".toList (lower el.nameAttr) || hasSub "login".toList (lower el.idAttr)

/-- isLoginForm: the heuristic login-form classifier of the content script. -/
def isLoginForm (s : Settings) (f : Form) : Bool :=
  if s.ignoreLoginForms = false then false
  else if passwordQuery f = true then true
  else if authKeywordHit f = true then true
  else if (passwordInputs f).length = 0 ∧ (textAreasOf f).length = 0 then
    if 1 ≤ (emailInputs f).length ∧ (textInputs f).length ≤ 1 ∧ (inputsOf f).length ≤ 3 then
      true
    else if 1 ≤ (userInputs f).length ∧ (inputsOf f).length ≤ 3 then true
    else false
  else false

/-- getFormKey: origin plus path, a separator, then the form id, else the
name attribute, else the zero-based index of the form in document.forms
(idx is that index; reference lookup of the form in the live list). -/
def getFormKey (origin pathname : List Char) (f : Form) (idx : Nat) : List Char :=
  let url := origin ++ pathname
  let identifier := if f.idAttr ≠ [] then f.idAttr else f.nameAttr
  let idxStr := if identifier = [] then Nat.toDigits 10 idx else []
  url ++ "::".toList ++ (if identifier ≠ [] then identifier else idxStr)

/-- el.type is checkbox or radio (the IDL type property lower-cases the
attribute; invalid tokens map to text and never to checkbox or radio). -/
def isCheckOrRadio (el : Control) : Bool :=
  decide (tagOf el = "input".toList ∧
    (typeOf el = "checkbox".toList ∨ typeOf el = "radio".toList))

/-- The saved tag set: input, textarea and select elements only. -/
def allowedTag (el : Control) : Bool :=
  decide (tagOf el ∈ ["input".toList, "textarea".toList, "select".toList])

/-- A stored field value: a string for ordinary controls, a boolean
checked-state for checkboxes and radios. -/
inductive FVal where
  | str : List Char → FVal
  | bool : Bool → FVal
deriving DecidableEq

/-- Assigning a stored value to el.checked: DOM coerces with JavaScript
truthiness, so a non-empty string counts as true. -/
def toChecked : FVal → Bool
  | .bool b => b
  | .str s => decide (s ≠ [])

/-- Assigning a stored value to el.value: a boolean stringifies. -/
def toValueStr : FVal → List Char
  | .str s => s
  | .bool b => if b then "true".toList else "false".toList

/-- Reading a property of the data object: first matching entry (writes
prepend, so the first match is the latest write). -/
def objGet (k : List Char) : List (List Char × FVal) → Option FVal
  | [] => none
  | e :: rest => if k = e.1 then some e.2 else objGet k rest

/-- The per-field key as derived on the save path: el.name, else el.id,
else tag underscore index; for a named checkbox or radio, name underscore
value instead. -/
def saveFieldKey (el : Control) (index : Nat) : List Char :=
  let base :=
    if el.nameAttr ≠ [] then el.nameAttr
    else if el.idAttr ≠ [] then el.idAttr
    else tagOf el ++ '_' :: Nat.toDigits 10 index
  if isCheckOrRadio el = true ∧ el.nameAttr ≠ [] then el.nameAttr ++ '_' :: el.value
  else base

/-- The per-field key as derived on the restore path (transcribed from the
restore loop of the source). -/
def restoreFieldKey (el : Control) (index : Nat) : List Char :=
  let base :=
    if el.nameAttr ≠ [] then el.nameAttr
    else if el.idAttr ≠ [] then el.idAttr
    else tagOf el ++ '_' :: Nat.toDigits 10 index
  if isCheckOrRadio el = true ∧ el.nameAttr ≠ [] then el.nameAttr ++ '_' :: el.value
  else base

/-- One iteration of the save loop body over form.elements. -/
def saveStep (acc : List (List Char × FVal)) (el : Control) (index : Nat) :
    List (List Char × FVal) :=
  if shouldSaveField el = false then acc
  else if allowedTag el = false then acc
  else if isCheckOrRadio el = true then (saveFieldKey el index, FVal.bool el.checked) :: acc
  else (saveFieldKey el index, FVal.str el.value) :: acc

/-- The save loop: forEach over form.elements with its running index. -/
def saveLoop (acc : List (List Char × FVal)) (index : Nat) :
    List Control → List (List Char × FVal)
  | [] => acc
  | el :: rest => saveLoop (saveStep acc el index) (index + 1) rest

/-- A stored snapshot: the field record and the save timestamp. -/
structure Snapshot where
  data : List (List Char × FVal)
  timestamp : Nat
deriving DecidableEq

/-- saveFormData: skip login forms (no storage write, modelled as none);
otherwise build the field record and stamp it with the current time. -/
def saveFormData (s : Settings) (f : Form) (now : Nat) : Option Snapshot :=
  if isLoginForm s f = true then none
  else some { data := saveLoop [] 0 f.controls, timestamp := now }

/-- The retention window in milliseconds; a zero retentionDays is falsy in
the source and falls back to 30. -/
def retentionMs (s : Settings) : Nat :=
  (if s.retentionDays = 0 then 30 else s.retentionDays) * 24 * 60 * 60 * 1000

/-- One iteration of the restore loop body: the updated control and whether
an assignment happened. -/
def restoreStep (saved : List (List Char × FVal)) (el : Control) (index : Nat) :
    Control × Bool :=
  if shouldSaveField el = false then (el, false)
  else if allowedTag el = false then (el, false)
  else
    match objGet (restoreFieldKey el index) saved with
    | none => (el, false)
    | some v =>
      if isCheckOrRadio el = true then ({ el with checked := toChecked v }, true)
      else ({ el with value := toValueStr v }, true)

/-- The restore loop over form.elements: the updated controls, the number
of assignments, and the restoredAny flag of the source. -/
def restoreLoop (saved : List (List Char × FVal)) (index : Nat) :
    List Control → List Control × Nat × Bool
  | [] => ([], 0, false)
  | el :: rest =>
    let p := restoreStep saved el index
    let r := restoreLoop saved (index + 1) rest
    (p.1 :: r.1, r.2.1 + (if p.2 = true then 1 else 0), r.2.2 || p.2)

/-- The observable outcome of restoreFormData: the updated form, the number
of field assignments, whether the stored key was deleted, and whether the
restore notification routine was invoked. -/
structure RestoreResult where
  form : Form
  restoredCount : Nat
  deletedKey : Bool
  notified : Bool
deriving DecidableEq

/-- restoreFormData: skip login forms; nothing stored means nothing to do;
an entry with a truthy timestamp older than the retention window is deleted
without restoring; otherwise assign every matching eligible field and invoke
the notification exactly when something was assigned. -/
def restoreFormData (s : Settings) (f : Form) (entry : Option Snapshot) (now : Nat) :
    RestoreResult :=
  if isLoginForm s f = true then
    { form := f, restoredCount := 0, deletedKey := false, notified := false }
  else
    match entry with
    | none => { form := f, restoredCount := 0, deletedKey := false, notified := false }
    | some e =>
      if e.timestamp ≠ 0 ∧ retentionMs s < now - e.timestamp then
        { form := f, restoredCount := 0, deletedKey := true, notified := false }
      else
        let r := restoreLoop e.data 0 f.controls
        { form := { f with controls := r.1 }, restoredCount := r.2.1,
          deletedKey := false, notified := r.2.2 }

/-- Clearing the user state of a control: uncheck a checkbox or radio (its
value attribute stays), blank the value of any other control. -/
def clearControl (el : Control) : Control :=
  if isCheckOrRadio el = true then { el with checked := false }
  else { el with value := [] }

/-- Clearing every control of a form. -/
def clearForm (f : Form) : Form := { f with controls := f.controls.map clearControl }

/-- A control that the persistence loops act on: eligible and of an allowed
tag. -/
def relevant (el : Control) : Bool := shouldSaveField el && allowedTag el

/-- The value the save loop records for a control. -/
def savedVal (el : Control) : FVal :=
  if isCheckOrRadio el = true then FVal.bool el.checked else FVal.str el.value

/-- The entries the save loop produces, newest first (the loop head ends up
last in this list; see saveLoop_eq_relEntries). -/
def relEntries (index : Nat) : List Control → List (List Char × FVal)
  | [] => []
  | el :: rest =>
    relEntries (index + 1) rest ++
      (if relevant el = true then [(saveFieldKey el index, savedVal el)] else [])

/-- The field keys of the relevant controls, in DOM order. -/
def relKeys (index : Nat) : List Control → List (List Char)
  | [] => []
  | el :: rest =>
    (if relevant el = true then [saveFieldKey el index] else []) ++ relKeys (index + 1) rest

/-- The number of relevant controls of a form. -/
def relCount (f : Form) : Nat := (f.controls.filter relevant).length

/-- Observational agreement with an original control: equal checked-state
for a checkbox or radio, equal string value otherwise. -/
def obsEq (c orig : Control) : Bool :=
  if isCheckOrRadio orig = true then c.checked == orig.checked else c.value == orig.value

/-- A blank input control, the base for the concrete examples below. -/
def baseControl : Control :=
  { tag := "input".toList, typeAttr := none, nameAttr := [], idAttr := [],
    autocompleteAttr := [], dataAutorecovery := none, value := [], checked := false }

/-- A blank form, the base for the concrete examples below. -/
def baseForm : Form :=
  { idAttr := [], nameAttr := [], classAttr := [], actionAttr := [], controls := [] }

/-- Text-like as claim C3 words it: the type attribute is one of text,
email, tel, number, or the attribute is absent.  (The source additionally
accepts the value phone and a present-but-empty attribute.) -/
def claimTextLike (el : Control) : Bool :=
  match el.typeAttr with
  | none => true
  | some t =>
    decide (lower t ∈ ["text".toList, "email".toList, "tel".toList, "number".toList])

/-- The structural login classification exactly as claim C3 words it. -/
def claimStructuralLogin (f : Form) : Bool :=
  decide ((1 ≤ (emailInputs f).length ∧ ((inputsOf f).filter claimTextLike).length ≤ 1 ∧
      (inputsOf f).length ≤ 3) ∨
    (1 ≤ (userInputs f).length ∧ (inputsOf f).length ≤ 3))

/-- An email-typed input. -/
def cEmail : Control := { baseControl with typeAttr := some "email".toList }

/-- An input whose type attribute is phone. -/
def cPhone : Control := { baseControl with typeAttr := some "phone".toList }

/-- A form holding an email input and a phone input. -/
def phoneForm : Form := { baseForm with controls := [cEmail, cPhone] }

/-- A password input. -/
def cPw : Control := { baseControl with typeAttr := some "password".toList }

/-- A form holding a single password input. -/
def pwForm : Form := { baseForm with controls := [cPw] }

/-- A text input named msg holding the value hi. -/
def cMsg : Control :=
  { baseControl with
    typeAttr := some "text".toList
    nameAttr := "msg".toList
    value := "hi".toList }

/-- A form holding just the msg input. -/
def msgForm : Form := { baseForm with controls := [cMsg] }

/-- A form holding a single email input whose name is email. -/
def emailForm : Form :=
  { baseForm with controls := [{ cEmail with nameAttr := "email".toList }] }

/-- A textarea with autocomplete off. -/
def taOff : Control :=
  { baseControl with
    tag := "textarea".toList
    autocompleteAttr := "off".toList }

/-- Two same-named text inputs holding different values. -/
def cDupA : Control :=
  { baseControl with
    typeAttr := some "text".toList
    nameAttr := "a".toList
    value := "x".toList }

/-- The second same-named text input. -/
def cDupB : Control :=
  { baseControl with
    typeAttr := some "text".toList
    nameAttr := "a".toList
    value := "y".toList }

/-- A form with two same-named text inputs: their field keys collide. -/
def dupForm : Form := { baseForm with controls := [cDupA, cDupB] }

/-- A checked checkbox named opt with value yes. -/
def cOpt : Control :=
  { baseControl with
    typeAttr := some "checkbox".toList
    nameAttr := "opt".toList
    value := "yes".toList
    checked := true }

/-- A round-trip example form: a text input and a checkbox. -/
def rtForm : Form := { baseForm with controls := [cMsg, cOpt] }

/-- A snapshot with a nonzero timestamp. -/
def expiredSnap : Snapshot :=
  { data := [("msg".toList, FVal.str "hi".toList)], timestamp := 1 }

/-- A snapshot whose timestamp is zero, hence falsy in the source. -/
def zeroTsSnap : Snapshot :=
  { data := [("msg".toList, FVal.str "hi".toList)], timestamp := 0 }

/-- An empty snapshot with a nonzero timestamp. -/
def loginSnap : Snapshot := { data := [], timestamp := 1 }

/-- A restore instant far beyond any retention window. -/
def bigNow : Nat := 10000000000000

/-- Any form containing a password-typed input classifies as a login form
when the ignoreLoginForms setting is on. -/
theorem isLoginForm_of_password (s : Settings) (f : Form)
    (h1 : s.ignoreLoginForms = true) (h2 : passwordQuery f = true) :
    isLoginForm s f = true := by
  unfold isLoginForm
  rw [h1, h2]
  simp

/-- If the password query fails, the password-input filter is empty. -/
theorem passwordInputs_eq_nil {f : Form} (h : passwordQuery f = false) :
    passwordInputs f = [] := by
  unfold passwordQuery at h
  rw [List.any_eq_false] at h
  unfold passwordInputs inputsOf
  rw [List.filter_filter, List.filter_eq_nil_iff]
  intro el hel
  have h2 := h el hel
  simp only [decide_eq_true_eq] at h2
  simp only [Bool.and_eq_true, decide_eq_true_eq, not_and]
  intro hty htag
  exact h2 ⟨htag, hty⟩

/-- Claim C1: for every form containing a descendant input whose type
attribute is password, when ignoreLoginForms is true, isLoginForm returns
true regardless of the other attributes or contents of the form. -/
theorem c1_password_short_circuit (s : Settings) (f : Form)
    (h1 : s.ignoreLoginForms = true) (h2 : passwordQuery f = true) :
    isLoginForm s f = true :=
  isLoginForm_of_password s f h1 h2

/-- Witness for C1 at a concrete password form. -/
theorem c1_password_short_circuit_witness :
    DEFAULTS.ignoreLoginForms = true ∧ passwordQuery pwForm = true ∧
      isLoginForm DEFAULTS pwForm = true :=
  ⟨rfl, by decide, c1_password_short_circuit DEFAULTS pwForm rfl (by decide)⟩

/-- Claim C2: when ignoreLoginForms is false, isLoginForm returns false for
every form, including forms with a password input or auth keywords. -/
theorem c2_opt_out_short_circuit (s : Settings) (f : Form)
    (h : s.ignoreLoginForms = false) : isLoginForm s f = false := by
  unfold isLoginForm
  rw [h]
  simp

/-- Witness for C2: the opt-out even overrides a concrete password form. -/
theorem c2_opt_out_short_circuit_witness :
    ({ DEFAULTS with ignoreLoginForms := false } : Settings).ignoreLoginForms = false ∧
      passwordQuery pwForm = true ∧
      isLoginForm { DEFAULTS with ignoreLoginForms := false } pwForm = false :=
  ⟨rfl, by decide,
    c2_opt_out_short_circuit { DEFAULTS with ignoreLoginForms := false } pwForm rfl⟩

/-- Claim C4: over input, textarea and select controls, shouldSaveField
rejects exactly the password, hidden and file inputs, the controls with
autocomplete off, and the controls with data-autorecovery equal to the
string false; every other such control is accepted. -/
theorem c4_eligibility_exclusions (el : Control)
    (hTag : tagOf el ∈ ["input".toList, "textarea".toList, "select".toList]) :
    shouldSaveField el = false ↔
      ((tagOf el = "input".toList ∧
          typeOf el ∈ ["password".toList, "hidden".toList, "file".toList]) ∨
        lower el.autocompleteAttr = "off".toList ∨
        el.dataAutorecovery = some "false".toList) := by
  unfold shouldSaveField
  split_ifs with hA hB hC
  · exact iff_of_true rfl (Or.inl hA)
  · exact iff_of_true rfl (Or.inr (Or.inl hB))
  · exact iff_of_true rfl (Or.inr (Or.inr hC))
  · exact iff_of_false (by simp) fun h => h.elim hA fun h2 => h2.elim hB hC

/-- Witness for C4 at a concrete textarea with autocomplete off. -/
theorem c4_eligibility_exclusions_witness :
    tagOf taOff ∈ ["input".toList, "textarea".toList, "select".toList] ∧
      (shouldSaveField taOff = false ↔
        ((tagOf taOff = "input".toList ∧
            typeOf taOff ∈ ["password".toList, "hidden".toList, "file".toList]) ∨
          lower taOff.autocompleteAttr = "off".toList ∨
          taOff.dataAutorecovery = some "false".toList)) :=
  ⟨by decide, c4_eligibility_exclusions taOff (by decide)⟩

/-- Claim C6: the save path and the restore path derive the same field key
for a control at a given position, and that key is the name, else the id,
else the synthesized tag-underscore-index fallback, with a named checkbox or
radio instead keyed by name underscore value. -/
theorem c6_field_key_agreement (el : Control) (index : Nat) :
    restoreFieldKey el index = saveFieldKey el index ∧
      saveFieldKey el index =
        (if isCheckOrRadio el = true ∧ el.nameAttr ≠ [] then
          el.nameAttr ++ '_' :: el.value
        else if el.nameAttr ≠ [] then el.nameAttr
        else if el.idAttr ≠ [] then el.idAttr
        else tagOf el ++ '_' :: Nat.toDigits 10 index) := by
  refine ⟨rfl, ?_⟩
  unfold saveFieldKey
  split_ifs <;> rfl

/-- Claim C7: the resolved form key is origin plus path, the separator, then
the id if non-empty, else the name if non-empty, else the zero-based index
of the form in the form list of the page. -/
theorem c7_form_key_fallback (origin pathname : List Char) (f : Form) (idx : Nat) :
    getFormKey origin pathname f idx =
      origin ++ pathname ++ "::".toList ++
        (if f.idAttr ≠ [] then f.idAttr
        else if f.nameAttr ≠ [] then f.nameAttr
        else Nat.toDigits 10 idx) := by
  unfold getFormKey
  by_cases h1 : f.idAttr = [] <;> by_cases h2 : f.nameAttr = [] <;>
    simp [h1, h2, List.append_assoc]

/-- The restoredAny flag of the restore loop is set exactly when the loop
performed at least one assignment. -/
theorem restoreLoop_any_iff (cs : List Control) :
    ∀ (saved : List (List Char × FVal)) (index : Nat),
      ((restoreLoop saved index cs).2.2 = true ↔ 0 < (restoreLoop saved index cs).2.1) := by
  induction cs with
  | nil => intro saved index; simp [restoreLoop]
  | cons el rest ih =>
    intro saved index
    simp only [restoreLoop]
    cases hp : (restoreStep saved el index).2 <;>
      simp [hp, ih saved (index + 1)]

/-- Claim C9: the restore notice is invoked exactly when the restore
operation assigned at least one field, and never on zero-field restores. -/
theorem c9_notice_iff_restored (s : Settings) (f : Form) (entry : Option Snapshot)
    (now : Nat) :
    ((restoreFormData s f entry now).notified = true ↔
      0 < (restoreFormData s f entry now).restoredCount) := by
  unfold restoreFormData
  split
  · simp
  · split
    · simp
    · split
      · simp
      · simpa using restoreLoop_any_iff _ _ 0

/-- Claim C10: every save invocation re-evaluates the login classification
on the form as it is at that moment, and performs no storage write whenever
the classifier answers true - by any of its branches.  Hence a form that
becomes a login form after monitoring was attached (for example, a password
input inserted later) is never persisted from then on. -/
theorem c10_save_rechecks_login (s : Settings) (f : Form) (now : Nat)
    (h : isLoginForm s f = true) : saveFormData s f now = none := by
  unfold saveFormData
  rw [h]
  simp

/-- Witness for C10 at a concrete form the classifier marks as login. -/
theorem c10_save_rechecks_login_witness :
    isLoginForm DEFAULTS pwForm = true ∧ saveFormData DEFAULTS pwForm 7 = none :=
  ⟨by decide, c10_save_rechecks_login DEFAULTS pwForm 7 (by decide)⟩

/-- Counterexample to claim C3 as stated: the form with one email input and
one phone-typed input meets every hypothesis of the claim and satisfies the
structural condition of the claim (the phone input is not text-like in the
set named by the claim, so its text-like count is 1), yet isLoginForm returns false,
because the source also counts phone-typed inputs as text-like. -/
theorem c3_counterexample :
    DEFAULTS.ignoreLoginForms = true ∧ passwordQuery phoneForm = false ∧
      textAreasOf phoneForm = [] ∧ authKeywordHit phoneForm = false ∧
      claimStructuralLogin phoneForm = true ∧
      isLoginForm DEFAULTS phoneForm = false := by decide

/-- Claim C3 (amended): with ignoreLoginForms on, no password input, no
textarea and no auth keyword, isLoginForm returns true exactly when either
the email branch holds (an email-like input, at most one text-like input
where text-like now also admits the type phone and a present-but-empty type
attribute, and at most three inputs) or the user branch holds (a user-like
input and at most three inputs). -/
theorem c3_structural_heuristic (s : Settings) (f : Form)
    (h1 : s.ignoreLoginForms = true) (h2 : passwordQuery f = false)
    (h3 : textAreasOf f = []) (h4 : authKeywordHit f = false) :
    isLoginForm s f = true ↔
      ((1 ≤ (emailInputs f).length ∧ (textInputs f).length ≤ 1 ∧
          (inputsOf f).length ≤ 3) ∨
        (1 ≤ (userInputs f).length ∧ (inputsOf f).length ≤ 3)) := by
  have hpw := passwordInputs_eq_nil h2
  unfold isLoginForm
  rw [h1, h2, h4, hpw, h3]
  simp only [List.length_nil, Bool.true_eq_false, Bool.false_eq_true, if_false,
    and_self, if_true]
  split_ifs with hA hB
  · exact iff_of_true rfl (Or.inl hA)
  · exact iff_of_true rfl (Or.inr hB)
  · exact iff_of_false (by simp) fun h => h.elim hA hB

/-- Witness for the amended C3 at the single email-input form. -/
theorem c3_structural_heuristic_witness :
    DEFAULTS.ignoreLoginForms = true ∧ passwordQuery emailForm = false ∧
      textAreasOf emailForm = [] ∧ authKeywordHit emailForm = false ∧
      (isLoginForm DEFAULTS emailForm = true ↔
        ((1 ≤ (emailInputs emailForm).length ∧ (textInputs emailForm).length ≤ 1 ∧
            (inputsOf emailForm).length ≤ 3) ∨
          (1 ≤ (userInputs emailForm).length ∧ (inputsOf emailForm).length ≤ 3))) :=
  ⟨rfl, by decide, by decide, by decide,
    c3_structural_heuristic DEFAULTS emailForm rfl (by decide) (by decide) (by decide)⟩

/-- Counterexample to claim C8 as stated, in two parts.  First, a stored
snapshot whose timestamp is zero is older than the retention window at the
given restore time, yet the truthiness guard of the source skips the expiry
branch: the restore assigns a field and issues no delete.  Second, on a form
classified as a login form the restore returns before the expiry check, so
an expired snapshot is not deleted either. -/
theorem c8_counterexample :
    (retentionMs DEFAULTS < bigNow - zeroTsSnap.timestamp ∧
      isLoginForm DEFAULTS msgForm = false ∧
      (restoreFormData DEFAULTS msgForm (some zeroTsSnap) bigNow).restoredCount = 1 ∧
      (restoreFormData DEFAULTS msgForm (some zeroTsSnap) bigNow).deletedKey = false) ∧
    (retentionMs DEFAULTS < bigNow - loginSnap.timestamp ∧
      isLoginForm DEFAULTS pwForm = true ∧
      (restoreFormData DEFAULTS pwForm (some loginSnap) bigNow).deletedKey = false) := by
  decide

/-- Claim C8 (amended): for a form not classified as a login form, a stored
snapshot with a nonzero timestamp older than the retention window makes
restore assign zero fields, leave the form unchanged, and issue a delete of
the stored key. -/
theorem c8_expiry_evicts (s : Settings) (f : Form) (e : Snapshot) (now : Nat)
    (hL : isLoginForm s f = false) (h0 : e.timestamp ≠ 0)
    (hexp : retentionMs s < now - e.timestamp) :
    restoreFormData s f (some e) now =
      { form := f, restoredCount := 0, deletedKey := true, notified := false } := by
  simp [restoreFormData, hL, h0, hexp]

/-- Witness for the amended C8 at a concrete expired snapshot. -/
theorem c8_expiry_evicts_witness :
    isLoginForm DEFAULTS msgForm = false ∧ expiredSnap.timestamp ≠ 0 ∧
      retentionMs DEFAULTS < bigNow - expiredSnap.timestamp ∧
      restoreFormData DEFAULTS msgForm (some expiredSnap) bigNow =
        { form := msgForm, restoredCount := 0, deletedKey := true, notified := false } :=
  ⟨by decide, by decide, by decide,
    c8_expiry_evicts DEFAULTS msgForm expiredSnap bigNow (by decide) (by decide)
      (by decide)⟩

/-- The restore path derives keys exactly as the save path does. -/
theorem restoreFieldKey_eq_save (el : Control) (index : Nat) :
    restoreFieldKey el index = saveFieldKey el index := rfl

/-- One save-loop step prepends exactly the entry of a relevant control. -/
theorem saveStep_eq (acc : List (List Char × FVal)) (el : Control) (index : Nat) :
    saveStep acc el index =
      (if relevant el = true then [(saveFieldKey el index, savedVal el)] else []) ++ acc := by
  unfold saveStep relevant savedVal
  cases hS : shouldSaveField el <;> cases hA : allowedTag el <;>
    cases hC : isCheckOrRadio el <;> simp [hS, hA, hC]

/-- The save loop produces the relevant entries, newest first, before the
initial accumulator. -/
theorem saveLoop_eq_relEntries (cs : List Control) :
    ∀ (acc : List (List Char × FVal)) (index : Nat),
      saveLoop acc index cs = relEntries index cs ++ acc := by
  induction cs with
  | nil => intro acc index; simp [saveLoop, relEntries]
  | cons el rest ih =>
    intro acc index
    simp only [saveLoop, relEntries]
    rw [ih, saveStep_eq, List.append_assoc]

/-- A key absent from the front part of an object reads from the back. -/
theorem objGet_append_none {k : List Char} {b a : List (List Char × FVal)}
    (h : objGet k a = none) : objGet k (a ++ b) = objGet k b := by
  induction a with
  | nil => rfl
  | cons e rest ih =>
    rw [List.cons_append]
    simp only [objGet] at h ⊢
    by_cases hk : k = e.1
    · rw [if_pos hk] at h; exact absurd h (by simp)
    · rw [if_neg hk] at h ⊢; exact ih h

/-- A key found in the front part of an object reads that value. -/
theorem objGet_append_some {k : List Char} {v : FVal} {b a : List (List Char × FVal)}
    (h : objGet k a = some v) : objGet k (a ++ b) = some v := by
  induction a with
  | nil => exact absurd h (by simp [objGet])
  | cons e rest ih =>
    rw [List.cons_append]
    simp only [objGet] at h ⊢
    by_cases hk : k = e.1
    · rw [if_pos hk] at h ⊢; exact h
    · rw [if_neg hk] at h ⊢; exact ih h

/-- A key that is not among the relevant keys is absent from the saved
entries. -/
theorem objGet_relEntries_none (cs : List Control) :
    ∀ (index : Nat) (k : List Char), k ∉ relKeys index cs →
      objGet k (relEntries index cs) = none := by
  induction cs with
  | nil => intro index k _; rfl
  | cons el rest ih =>
    intro index k hk
    simp only [relKeys, List.mem_append, not_or] at hk
    simp only [relEntries]
    rw [objGet_append_none (ih (index + 1) k hk.2)]
    by_cases hr : relevant el = true
    · have hne : k ≠ saveFieldKey el index := by
        intro hcon
        exact hk.1 (by rw [if_pos hr]; simp [hcon])
      rw [if_pos hr]
      simp [objGet, hne]
    · rw [if_neg hr]; rfl

/-- With pairwise-distinct relevant keys, the saved entries map each
key of each relevant control to exactly its recorded value. -/
theorem objGet_relEntries_get (cs : List Control) :
    ∀ (index j : Nat) (hj : j < cs.length), (relKeys index cs).Nodup →
      relevant (cs.get ⟨j, hj⟩) = true →
      objGet (saveFieldKey (cs.get ⟨j, hj⟩) (index + j)) (relEntries index cs) =
        some (savedVal (cs.get ⟨j, hj⟩)) := by
  induction cs with
  | nil => intro index j hj; exact absurd hj (by simp)
  | cons el rest ih =>
    intro index j hj hnd hrel
    cases j with
    | zero =>
      simp only [List.get] at hrel ⊢
      simp only [relEntries]
      rw [if_pos hrel]
      have hnotin : saveFieldKey el index ∉ relKeys (index + 1) rest := by
        simp only [relKeys, if_pos hrel, List.singleton_append,
          List.nodup_cons] at hnd
        exact hnd.1
      have h2 := objGet_relEntries_none rest (index + 1) _ hnotin
      rw [Nat.add_zero, objGet_append_none h2]
      simp [objGet]
    | succ j' =>
      have hj' : j' < rest.length := Nat.lt_of_succ_lt_succ hj
      have hndr : (relKeys (index + 1) rest).Nodup := by
        simp only [relKeys] at hnd
        exact hnd.of_append_right
      have hget : (el :: rest).get ⟨j' + 1, hj⟩ = rest.get ⟨j', hj'⟩ := rfl
      rw [hget] at hrel ⊢
      have harith : index + (j' + 1) = (index + 1) + j' := by omega
      rw [harith]
      simp only [relEntries]
      exact objGet_append_some (ih (index + 1) j' hj' hndr hrel)

/-- Clearing preserves the tag. -/
theorem clearControl_tag (el : Control) : (clearControl el).tag = el.tag := by
  unfold clearControl; split <;> rfl

/-- Clearing preserves the type attribute. -/
theorem clearControl_typeAttr (el : Control) :
    (clearControl el).typeAttr = el.typeAttr := by
  unfold clearControl; split <;> rfl

/-- Clearing preserves the name attribute. -/
theorem clearControl_nameAttr (el : Control) :
    (clearControl el).nameAttr = el.nameAttr := by
  unfold clearControl; split <;> rfl

/-- Clearing preserves the id attribute. -/
theorem clearControl_idAttr (el : Control) : (clearControl el).idAttr = el.idAttr := by
  unfold clearControl; split <;> rfl

/-- Clearing preserves the autocomplete attribute. -/
theorem clearControl_autocompleteAttr (el : Control) :
    (clearControl el).autocompleteAttr = el.autocompleteAttr := by
  unfold clearControl; split <;> rfl

/-- Clearing preserves the data-autorecovery attribute. -/
theorem clearControl_dataAutorecovery (el : Control) :
    (clearControl el).dataAutorecovery = el.dataAutorecovery := by
  unfold clearControl; split <;> rfl

/-- Clearing a checkbox or radio keeps its value attribute. -/
theorem clearControl_value_of_cr {el : Control} (h : isCheckOrRadio el = true) :
    (clearControl el).value = el.value := by
  unfold clearControl; rw [if_pos h]

/-- Eligibility is insensitive to clearing. -/
theorem shouldSaveField_clear (el : Control) :
    shouldSaveField (clearControl el) = shouldSaveField el := by
  unfold shouldSaveField tagOf typeOf
  rw [clearControl_tag, clearControl_typeAttr, clearControl_autocompleteAttr,
    clearControl_dataAutorecovery]

/-- The allowed-tag test is insensitive to clearing. -/
theorem allowedTag_clear (el : Control) : allowedTag (clearControl el) = allowedTag el := by
  unfold allowedTag tagOf
  rw [clearControl_tag]

/-- The checkbox-or-radio test is insensitive to clearing. -/
theorem isCheckOrRadio_clear (el : Control) :
    isCheckOrRadio (clearControl el) = isCheckOrRadio el := by
  unfold isCheckOrRadio tagOf typeOf
  rw [clearControl_tag, clearControl_typeAttr]

/-- Relevance is insensitive to clearing. -/
theorem relevant_clear (el : Control) : relevant (clearControl el) = relevant el := by
  unfold relevant
  rw [shouldSaveField_clear, allowedTag_clear]

/-- The field key is insensitive to clearing: for a checkbox or radio the
value attribute survives the clear, and no other key component changes. -/
theorem saveFieldKey_clear (el : Control) (index : Nat) :
    saveFieldKey (clearControl el) index = saveFieldKey el index := by
  simp only [saveFieldKey, tagOf]
  rw [isCheckOrRadio_clear, clearControl_nameAttr, clearControl_idAttr, clearControl_tag]
  by_cases h : isCheckOrRadio el = true ∧ el.nameAttr ≠ []
  · rw [if_pos h, if_pos h, clearControl_value_of_cr h.1]
  · rw [if_neg h, if_neg h]

/-- Restoring a cleared relevant control from its own saved value recovers
its observable state; an irrelevant control is left cleared and unflagged. -/
theorem restoreStep_clear (D : List (List Char × FVal)) (el : Control) (index : Nat)
    (hget : relevant el = true → objGet (saveFieldKey el index) D = some (savedVal el)) :
    restoreStep D (clearControl el) index =
      (if relevant el = true then
        ((if isCheckOrRadio el = true then { clearControl el with checked := el.checked }
          else { clearControl el with value := el.value }), true)
      else (clearControl el, false)) := by
  by_cases hrel : relevant el = true
  · have hSA : shouldSaveField el = true ∧ allowedTag el = true := by
      have h2 := hrel
      unfold relevant at h2
      simpa using h2
    rw [if_pos hrel]
    unfold restoreStep
    rw [shouldSaveField_clear, allowedTag_clear, hSA.1, hSA.2]
    simp only [Bool.true_eq_false, if_false]
    rw [restoreFieldKey_eq_save, saveFieldKey_clear, hget hrel]
    rw [isCheckOrRadio_clear]
    by_cases hcr : isCheckOrRadio el = true
    · simp [savedVal, hcr, toChecked]
    · simp [savedVal, hcr, toValueStr]
  · rw [if_neg hrel]
    have hor : shouldSaveField el = false ∨ allowedTag el = false := by
      cases h4 : shouldSaveField el
      · exact Or.inl rfl
      · cases h5 : allowedTag el
        · exact Or.inr rfl
        · exact absurd (show relevant el = true by unfold relevant; rw [h4, h5]; rfl) hrel
    unfold restoreStep
    rw [shouldSaveField_clear, allowedTag_clear]
    rcases hor with hS | hA
    · rw [hS]; simp
    · rw [hA]
      by_cases hS : shouldSaveField el = false
      · rw [hS]; simp
      · rw [Bool.not_eq_false] at hS
        rw [hS]
        simp

/-- The restore loop on the cleared controls, fed an object resolving every
relevant key, recovers the observable state of every relevant control and counts
exactly the relevant controls. -/
theorem restoreLoop_round (cs : List Control) :
    ∀ (index : Nat) (D : List (List Char × FVal)),
      (∀ j (hj : j < cs.length), relevant (cs.get ⟨j, hj⟩) = true →
        objGet (saveFieldKey (cs.get ⟨j, hj⟩) (index + j)) D =
          some (savedVal (cs.get ⟨j, hj⟩))) →
      (restoreLoop D index (cs.map clearControl)).1.length = cs.length ∧
      (restoreLoop D index (cs.map clearControl)).2.1 = (cs.filter relevant).length ∧
      (∀ j (hj : j < cs.length), relevant (cs.get ⟨j, hj⟩) = true →
        obsEq ((restoreLoop D index (cs.map clearControl)).1.getD j baseControl)
          (cs.get ⟨j, hj⟩) = true) := by
  induction cs with
  | nil =>
    intro index D _
    refine ⟨rfl, rfl, ?_⟩
    intro j hj
    exact absurd hj (by simp)
  | cons el rest ih =>
    intro index D H
    have Hhead : relevant el = true → objGet (saveFieldKey el index) D = some (savedVal el) := by
      intro hr
      have h0 := H 0 (by simp) (by simpa using hr)
      simpa using h0
    have Htail : ∀ j (hj : j < rest.length), relevant (rest.get ⟨j, hj⟩) = true →
        objGet (saveFieldKey (rest.get ⟨j, hj⟩) ((index + 1) + j)) D =
          some (savedVal (rest.get ⟨j, hj⟩)) := by
      intro j hj hr
      have harith : index + (j + 1) = (index + 1) + j := by omega
      have h1 := H (j + 1) (Nat.succ_lt_succ hj) (by simpa using hr)
      rw [harith] at h1
      simpa using h1
    obtain ⟨ihlen, ihcount, ihobs⟩ := ih (index + 1) D Htail
    have hloop : restoreLoop D index ((el :: rest).map clearControl) =
        ((restoreStep D (clearControl el) index).1 ::
            (restoreLoop D (index + 1) (rest.map clearControl)).1,
          (restoreLoop D (index + 1) (rest.map clearControl)).2.1 +
            (if (restoreStep D (clearControl el) index).2 = true then 1 else 0),
          (restoreLoop D (index + 1) (rest.map clearControl)).2.2 ||
            (restoreStep D (clearControl el) index).2) := rfl
    rw [hloop]
    rw [restoreStep_clear D el index Hhead]
    by_cases hrel : relevant el = true
    · rw [if_pos hrel]
      refine ⟨by simpa using ihlen, ?_, ?_⟩
      · simp only [List.filter_cons_of_pos hrel, List.length_cons]
        simpa using ihcount
      · intro j hj hr
        cases j with
        | zero =>
          simp only [List.getD_cons_zero]
          have hgz : (el :: rest).get ⟨0, hj⟩ = el := rfl
          rw [hgz]
          by_cases hcr : isCheckOrRadio el = true
          · simp [obsEq, hcr]
          · simp [obsEq, hcr]
        | succ j' =>
          have hj' : j' < rest.length := Nat.lt_of_succ_lt_succ hj
          have hgs : (el :: rest).get ⟨j' + 1, hj⟩ = rest.get ⟨j', hj'⟩ := rfl
          rw [hgs] at hr ⊢
          simp only [List.getD_cons_succ]
          exact ihobs j' hj' hr
    · rw [if_neg hrel]
      refine ⟨by simpa using ihlen, ?_, ?_⟩
      · rw [List.filter_cons_of_neg (by simpa using hrel)]
        simpa using ihcount
      · intro j hj hr
        cases j with
        | zero =>
          have hgz : (el :: rest).get ⟨0, hj⟩ = el := rfl
          rw [hgz] at hr
          exact absurd hr hrel
        | succ j' =>
          have hj' : j' < rest.length := Nat.lt_of_succ_lt_succ hj
          have hgs : (el :: rest).get ⟨j' + 1, hj⟩ = rest.get ⟨j', hj'⟩ := rfl
          rw [hgs] at hr ⊢
          simp only [List.getD_cons_succ]
          exact ihobs j' hj' hr

/-- Filtering with pointwise-equal predicates gives equal results. -/
theorem filter_pred_congr {p q : Control → Bool} (h : ∀ x, p x = q x)
    (l : List Control) : l.filter p = l.filter q := by
  induction l with
  | nil => rfl
  | cons a t ih => simp [List.filter_cons, h a, ih]

/-- Existence tests with pointwise-equal predicates give equal results. -/
theorem any_pred_congr {p q : Control → Bool} (h : ∀ x, p x = q x)
    (l : List Control) : l.any p = l.any q := by
  induction l with
  | nil => rfl
  | cons a t ih => simp [h a, ih]

/-- Filtering a mapped list filters by the composed predicate. -/
theorem filter_map_eq (g : Control → Control) (p : Control → Bool) (l : List Control) :
    (l.map g).filter p = (l.filter fun x => p (g x)).map g := by
  induction l with
  | nil => rfl
  | cons a t ih => cases h : p (g a) <;> simp [List.filter_cons, h, ih]

/-- An existence test over a mapped list tests the composed predicate. -/
theorem any_map_eq (g : Control → Control) (p : Control → Bool) (l : List Control) :
    (l.map g).any p = l.any fun x => p (g x) := by
  induction l with
  | nil => rfl
  | cons a t ih => simp [ih]

/-- Clearing a form does not change which controls are inputs. -/
theorem inputsOf_clear (f : Form) :
    inputsOf (clearForm f) = (inputsOf f).map clearControl := by
  simp only [inputsOf, clearForm]
  rw [filter_map_eq]
  exact congrArg (List.map clearControl)
    (filter_pred_congr (fun x => by simp [tagOf, clearControl_tag]) f.controls)

/-- Clearing a form does not change which controls are textareas. -/
theorem textAreasOf_clear (f : Form) :
    textAreasOf (clearForm f) = (textAreasOf f).map clearControl := by
  simp only [textAreasOf, clearForm]
  rw [filter_map_eq]
  exact congrArg (List.map clearControl)
    (filter_pred_congr (fun x => by simp [tagOf, clearControl_tag]) f.controls)

/-- Clearing a form does not change its text-like inputs. -/
theorem textInputs_clear (f : Form) :
    textInputs (clearForm f) = (textInputs f).map clearControl := by
  unfold textInputs
  rw [inputsOf_clear]
  rw [filter_map_eq]
  exact congrArg (List.map clearControl)
    (filter_pred_congr (fun x => by simp [typeOf, clearControl_typeAttr]) (inputsOf f))

/-- Clearing a form does not change its email-like inputs. -/
theorem emailInputs_clear (f : Form) :
    emailInputs (clearForm f) = (emailInputs f).map clearControl := by
  unfold emailInputs
  rw [inputsOf_clear]
  rw [filter_map_eq]
  exact congrArg (List.map clearControl)
    (filter_pred_congr (fun x => by simp [typeOf, clearControl_typeAttr, clearControl_nameAttr, clearControl_idAttr]) (inputsOf f))

/-- Clearing a form does not change its password-typed inputs. -/
theorem passwordInputs_clear (f : Form) :
    passwordInputs (clearForm f) = (passwordInputs f).map clearControl := by
  unfold passwordInputs
  rw [inputsOf_clear]
  rw [filter_map_eq]
  exact congrArg (List.map clearControl)
    (filter_pred_congr (fun x => by simp [typeOf, clearControl_typeAttr]) (inputsOf f))

/-- Clearing a form does not change its user-like inputs. -/
theorem userInputs_clear (f : Form) :
    userInputs (clearForm f) = (userInputs f).map clearControl := by
  unfold userInputs
  rw [inputsOf_clear]
  rw [filter_map_eq]
  exact congrArg (List.map clearControl)
    (filter_pred_congr (fun x => by simp [clearControl_nameAttr, clearControl_idAttr]) (inputsOf f))

/-- Clearing a form does not change the password query. -/
theorem passwordQuery_clear (f : Form) :
    passwordQuery (clearForm f) = passwordQuery f := by
  simp only [passwordQuery, clearForm]
  rw [any_map_eq]
  exact any_pred_congr
    (fun x => by simp [tagOf, typeOf, clearControl_tag, clearControl_typeAttr]) f.controls

/-- The login classification only reads attributes, so clearing the values
of a form does not change it. -/
theorem isLoginForm_clear (s : Settings) (f : Form) :
    isLoginForm s (clearForm f) = isLoginForm s f := by
  unfold isLoginForm
  rw [passwordQuery_clear,
    show authKeywordHit (clearForm f) = authKeywordHit f from rfl,
    passwordInputs_clear, textAreasOf_clear, emailInputs_clear, textInputs_clear,
    inputsOf_clear, userInputs_clear]
  simp [List.length_map]

/-- Counterexample to claim C5 as stated: in the form with two eligible
text inputs both named a, the saved record keeps only the later value, so
after clearing and restoring, the first control holds y instead of its
original x (the restore still reports two assignments). -/
theorem c5_counterexample :
    isLoginForm DEFAULTS dupForm = false ∧
      shouldSaveField cDupA = true ∧ shouldSaveField cDupB = true ∧
      (restoreFormData DEFAULTS (clearForm dupForm)
          (saveFormData DEFAULTS dupForm 5) 5).restoredCount = 2 ∧
      dupForm.controls.getD 0 baseControl = cDupA ∧ cDupA.value = "x".toList ∧
      ((restoreFormData DEFAULTS (clearForm dupForm)
          (saveFormData DEFAULTS dupForm 5) 5).form.controls.getD 0 baseControl).value =
        "y".toList := by decide

/-- Claim C5 (amended): for a non-login form whose relevant controls carry
pairwise-distinct field keys, saving, clearing the values of the form and
restoring recovers the observable state of every relevant control exactly (the
checked-state of a checkbox or radio, the string value of any other
control), and the restore reports as many assignments as there are relevant
controls. -/
theorem c5_round_trip (s : Settings) (f : Form) (now : Nat)
    (hL : isLoginForm s f = false) (hnd : (relKeys 0 f.controls).Nodup) :
    (restoreFormData s (clearForm f) (saveFormData s f now) now).restoredCount =
      relCount f ∧
    (restoreFormData s (clearForm f) (saveFormData s f now) now).form.controls.length =
      f.controls.length ∧
    (∀ j (hj : j < f.controls.length), relevant (f.controls.get ⟨j, hj⟩) = true →
      obsEq ((restoreFormData s (clearForm f) (saveFormData s f now)
          now).form.controls.getD j baseControl) (f.controls.get ⟨j, hj⟩) = true) := by
  have hsave : saveFormData s f now =
      some { data := relEntries 0 f.controls, timestamp := now } := by
    unfold saveFormData
    rw [hL]
    simp [saveLoop_eq_relEntries]
  have hLc : isLoginForm s (clearForm f) = false := by
    rw [isLoginForm_clear]; exact hL
  have hres : restoreFormData s (clearForm f) (saveFormData s f now) now =
      { form := { clearForm f with
          controls := (restoreLoop (relEntries 0 f.controls) 0
            (f.controls.map clearControl)).1 },
        restoredCount := (restoreLoop (relEntries 0 f.controls) 0
          (f.controls.map clearControl)).2.1,
        deletedKey := false,
        notified := (restoreLoop (relEntries 0 f.controls) 0
          (f.controls.map clearControl)).2.2 } := by
    rw [hsave]
    unfold restoreFormData
    rw [hLc]
    simp [Nat.sub_self]
    exact ⟨rfl, rfl, rfl⟩
  obtain ⟨hlen, hcount, hobs⟩ := restoreLoop_round f.controls 0 (relEntries 0 f.controls)
    (fun j hj hr => objGet_relEntries_get f.controls 0 j hj hnd hr)
  rw [hres]
  exact ⟨hcount, hlen, hobs⟩

/-- Witness for the amended C5 at a form with a text input and a checkbox. -/
theorem c5_round_trip_witness :
    isLoginForm DEFAULTS rtForm = false ∧ (relKeys 0 rtForm.controls).Nodup ∧
      ((restoreFormData DEFAULTS (clearForm rtForm) (saveFormData DEFAULTS rtForm 5)
            5).restoredCount = relCount rtForm ∧
        (restoreFormData DEFAULTS (clearForm rtForm) (saveFormData DEFAULTS rtForm 5)
              5).form.controls.length = rtForm.controls.length ∧
        (∀ j (hj : j < rtForm.controls.length),
          relevant (rtForm.controls.get ⟨j, hj⟩) = true →
          obsEq ((restoreFormData DEFAULTS (clearForm rtForm)
                (saveFormData DEFAULTS rtForm 5) 5).form.controls.getD j baseControl)
            (rtForm.controls.get ⟨j, hj⟩) = true)) :=
  ⟨by decide, by decide, c5_round_trip DEFAULTS rtForm 5 (by decide) (by decide)⟩

end AutoFormRecovery
